import Mathlib

/-!
Shallow embedding of the semantic-search subsystem of the repository
(`src/database_queries/semantic_search.py`): text chunking, the chunk
store and its sync pass, HNSW index (re)building, and the query-time
search orchestrator `perform_semantic_search`.

External collaborators (MySQL result sets, the sentence-embedding model,
the cross-encoder reranker, the hnswlib index, pickle) are modelled as an
explicit `Oracle` of abstract functions; all persistent state (the five
record tables, the `SCP_SEMANTIC_CHUNKS` table, the AUTO_INCREMENT
counter, the persisted index artifact) is an explicit `DBState` threaded
through the functions.  Python exceptions are modelled with `Except`;
the catch-all handler of `perform_semantic_search` turns errors into an
empty result list, as the source does.
-/

/-! ## Settings (module constants of semantic_search.py) -/

def CHUNK_SIZE : Nat := 800

def CHUNK_OVERLAP : Nat := 100

/-! ## Text chunker (`chunk_text`, lines 95-104)

The source iterates `for i in range(0, len(tokens), CHUNK_SIZE - CHUNK_OVERLAP)`
and appends `" ".join(tokens[i:i + CHUNK_SIZE])`.  We model the loop at the
token level (`chunkTokens`), generalising the two module constants into
parameters so that the degenerate configurations the spec discusses are
expressible.  the Python `range(0, n, step)` with `step > 0` enumerates
`ceil(n / step)` indices `0, step, 2*step, ...`; with `step = 0` it raises
`ValueError`, and with `step < 0` (and stop `n ≥ 0`) it is empty. -/

/-- Worker for `pySplit`: walks the characters, accumulating the current token
(in reverse); whitespace runs end a token, and empty pieces are dropped. -/
def pySplitAux : List Char → List Char → List String
  | [], acc => if acc.isEmpty then [] else [String.mk acc.reverse]
  | c :: cs, acc =>
      if c.isWhitespace then
        if acc.isEmpty then pySplitAux cs [] else String.mk acc.reverse :: pySplitAux cs []
      else pySplitAux cs (c :: acc)

/-- Python `text.strip().split()`: split on whitespace runs, dropping empty pieces
(the `.strip()` is subsumed: leading/trailing whitespace never yields a token). -/
def pySplit (s : String) : List String := pySplitAux s.data []

/-- Python `" ".join(tokens)`. -/
def joinTokens : List String → String
  | [] => ""
  | [t] => t
  | t :: rest => t ++ " " ++ joinTokens rest

/-- Python string slicing `s[:n]` (by characters). -/
def strTake (s : String) (n : Nat) : String := String.mk (s.data.take n)

/-- Indices `0, step, 2*step, ...` below `n`: Python `range(0, n, step)` for `step > 0`. -/
def rangeIdx (n step : Nat) : List Nat :=
  (List.range ((n + step - 1) / step)).map (fun j => j * step)

/-- The token-level chunking loop body: `tokens[i : i + size]` at each index of the range. -/
def chunkTokens (size step : Nat) (tokens : List String) : List (List String) :=
  (rangeIdx tokens.length step).map (fun i => (tokens.drop i).take size)

/-- Loop of chunk_text for an arbitrary (size, overlap) configuration, with the Python
`range` semantics for the slide step `size - overlap`: a zero step raises `ValueError`,
a negative step yields an empty range (hence no chunks). -/
def chunkTokensCfg (size ov : Nat) (tokens : List String) :
    Except String (List (List String)) :=
  let step : Int := (size : Int) - (ov : Int)
  if step = 0 then .error "range() arg 3 must not be zero"
  else if step < 0 then .ok []
  else .ok (chunkTokens size (size - ov) tokens)

/-- Function chunk_text (lines 95-104) for an arbitrary (size, overlap) configuration:
empty text and whitespace-only text short-circuit to `[]` before the loop runs;
otherwise the token chunks are joined with single spaces. -/
def chunkTextCfg (size ov : Nat) (text : String) : Except String (List String) :=
  if text = "" then .ok []
  else
    let tokens := pySplit text
    if tokens = [] then .ok []
    else (chunkTokensCfg size ov tokens).map (fun cs => cs.map joinTokens)

/-- Function chunk_text as shipped: the module constants give slide step `700 > 0`,
so the configuration-error branch is unreachable. -/
def chunk_text (text : String) : List String :=
  match chunkTextCfg CHUNK_SIZE CHUNK_OVERLAP text with
  | .ok cs => cs
  | .error _ => []

/-- Reassembly of a chunk sequence: the first chunk, then every later chunk with
its leading `ov`-token overlap region removed (§8 of the spec: "concatenation of
chunks (minus overlaps)"). -/
def reconstructChunks (ov : Nat) : List (List String) → List String
  | [] => []
  | c :: rest => c ++ (rest.map (List.drop ov)).flatten

/-! ## The fast-path entity-code regex (line 291)

`re.search(r"\bSCP[- ]?0*([0-9]{1,4})\b", query, re.IGNORECASE)` followed by
`f"SCP-{int(group(1)):03d}"`.  The scan walks the string left to right; at each
position with a word boundary before it, it tries to match `SCP` (case
insensitively), an optional dash or space, greedily many zero characters, then a group of at
most four digits ending at a word boundary.  Because `int` ignores leading
zeros, the value captured by the group equals the value of the whole digit run, and
a successful match requires exactly that the digit run (length `d`, with `z`
leading zeros) satisfies `1 ≤ d ≤ z + 4` and is followed by a non-word
character or the end of the string. -/

def isWordChar (c : Char) : Bool := c.isAlphanum || c == '_'

def leadingCount (p : Char → Bool) : List Char → Nat
  | [] => 0
  | c :: cs => if p c then leadingCount p cs + 1 else 0

def digitsToNat (cs : List Char) : Nat :=
  cs.foldl (fun a c => a * 10 + (c.toNat - 48)) 0

def headIsWordChar : List Char → Bool
  | [] => false
  | c :: _ => isWordChar c

/-- Attempt the regex tail `[- ]?0*([0-9]{1,4})\b` on the characters that follow
a case-insensitive `SCP`; returns the integer value of the captured group. -/
def scpMatchAfter (cs : List Char) : Option Nat :=
  let cs' := match cs with
    | c :: rest => if c == '-' || c == ' ' then rest else c :: rest
    | [] => ([] : List Char)
  let d := leadingCount Char.isDigit cs'
  let z := leadingCount (fun c => c == '0') cs'
  if 1 ≤ d && d ≤ z + 4 && !(headIsWordChar (cs'.drop d)) then
    some (digitsToNat (cs'.take d))
  else none

def startsWithSCP : List Char → Bool
  | c1 :: c2 :: c3 :: _ => c1.toLower == 's' && c2.toLower == 'c' && c3.toLower == 'p'
  | _ => false

/-- Left-to-right scan of `re.search`: `prevWord` records whether the previous
character was a word character (for the leading `\b`). -/
def scpScan : Bool → List Char → Option Nat
  | _, [] => none
  | prevWord, c :: cs =>
      if !prevWord && startsWithSCP (c :: cs) then
        match scpMatchAfter (cs.drop 2) with
        | some n => some n
        | none => scpScan (isWordChar c) cs
      else scpScan (isWordChar c) cs

def scpRegexSearch (q : String) : Option Nat := scpScan false q.data

/-- Python `f"{n:03d}"`. -/
def pad3 (n : Nat) : String :=
  if n < 10 then "00" ++ toString n
  else if n < 100 then "0" ++ toString n
  else toString n

def charsPrefixOf : List Char → List Char → Bool
  | _, [] => true
  | [], _ :: _ => false
  | c :: cs, p :: ps => c == p && charsPrefixOf cs ps

def charsContain (pat : List Char) : List Char → Bool
  | [] => pat.isEmpty
  | c :: cs => charsPrefixOf (c :: cs) pat || charsContain pat cs

/-- MySQL LIKE with percent wildcards around the pattern, under the default
case-insensitive collation:
case-insensitive substring containment (the pattern contains no wildcards here). -/
def likeContains (hay pat : String) : Bool :=
  charsContain (pat.data.map Char.toLower) (hay.data.map Char.toLower)

/-! ## Data model

One structure per relational row type read by `update_vector_store`
(lines 170-174), the `SCP_SEMANTIC_CHUNKS` row (schema, lines 39-52), and the
assembled search result.  VARCHAR/TEXT columns are modelled as `String`,
integer keys as `Nat`; embedding vectors and their pickled blobs are opaque
`Nat`s.  Relevance scores are `ℚ`. -/

structure ScpRow where
  scp_id : Nat
  scp_code : String
  title : String
  object_class : String
  full_description : String
  containment_procedures : String
deriving DecidableEq

structure PersonnelRow where
  person_id : Nat
  callsign : String
  given_name : String
  surname : String
  role : String
  notes : String
deriving DecidableEq

structure MtfRow where
  mtf_id : Nat
  designation : String
  nickname : String
  primary_role : String
  notes : String
deriving DecidableEq

structure FacilityRow where
  facility_id : Nat
  code : String
  name : String
  purpose : String
  city : String
  country : String
deriving DecidableEq

structure IncidentRow where
  incident_id : Nat
  title : String
  incident_date : String
  summary : String
  severity_level : Nat
deriving DecidableEq

/-- One row of `SCP_SEMANTIC_CHUNKS`. -/
structure ChunkRow where
  chunk_id : Nat
  ref_id : Nat
  ref_type : String
  scp_code : String
  chunk_index : Nat
  chunk_text : String
  embedding_blob : Nat
deriving DecidableEq

/-- One entry of `all_entries` in `update_vector_store` (lines 176-218). -/
structure Entry where
  ref_id : Nat
  ref_type : String
  code : String
  text : String
deriving DecidableEq

/-- A result dict of `perform_semantic_search`. -/
structure SearchResult where
  id : Nat
  type : String
  scp_code : String
  title : String
  object_class : String
  description : String
  score : ℚ
deriving DecidableEq

/-- The persistent state: the five record tables, the chunk table, the MySQL
AUTO_INCREMENT counter for `chunk_id`, and the persisted index artifact
(`scp_hnsw.bin`), modelled as the ordered list of vectors whose position is
the hnswlib label (`none` = file absent). -/
structure DBState where
  scps : List ScpRow
  personnel : List PersonnelRow
  mtf : List MtfRow
  facilities : List FacilityRow
  incidents : List IncidentRow
  chunks : List ChunkRow
  nextChunkId : Nat
  indexFile : Option (List Nat)
deriving DecidableEq

/-- The external collaborators: the sentence embedder, pickle
serialization/deserialization (`deser` returns `none` on a corrupt blob, the
`except: continue` of lines 140-144), the hnswlib k-NN query (vectors of the
live index, query embedding, k ↦ labels), the cross-encoder reranker, and the
MySQL FULLTEXT `MATCH ... AGAINST` relevance engine (query, chunk table ↦
matching chunk ids; its SQL `LIMIT` is applied by the caller). -/
structure Oracle where
  embed : String → Nat
  ser : Nat → Nat
  deser : Nat → Option Nat
  knn : List Nat → Nat → Nat → List Nat
  rerank : String → String → ℚ
  keywordMatch : String → List ChunkRow → List Nat

/-! ## Record Store Adapter: `all_entries` (lines 176-218) -/

def scpEntry (p : ScpRow) : Entry :=
  { ref_id := p.scp_id, ref_type := "SCP", code := p.scp_code,
    text := p.scp_code ++ " " ++ p.title ++ "\nClass: " ++ p.object_class ++ "\n\n" ++
      p.containment_procedures ++ "\n\n" ++ p.full_description }

/-- Python `str.strip()`. -/
def strTrim (s : String) : String :=
  String.mk (((s.data.dropWhile Char.isWhitespace).reverse.dropWhile Char.isWhitespace).reverse)

def personnelEntry (p : PersonnelRow) : Entry :=
  let name := strTrim (p.given_name ++ " " ++ p.surname)
  { ref_id := p.person_id, ref_type := "PERSONNEL",
    code := if p.callsign ≠ "" then p.callsign else name,
    text := "Personnel: " ++ name ++ "\nCallsign: " ++ p.callsign ++ "\nRole: " ++
      p.role ++ "\n\nNotes:\n" ++ p.notes }

def mtfEntry (m : MtfRow) : Entry :=
  { ref_id := m.mtf_id, ref_type := "MTF", code := m.designation,
    text := "Mobile Task Force " ++ m.designation ++ " \x27" ++ m.nickname ++
      "\x27\nRole: " ++ m.primary_role ++ "\n\nNotes:\n" ++ m.notes }

def facilityEntry (f : FacilityRow) : Entry :=
  { ref_id := f.facility_id, ref_type := "FACILITY", code := f.code,
    text := "Facility: " ++ f.name ++ " (" ++ f.code ++ ")\nLocation: " ++ f.city ++
      ", " ++ f.country ++ "\n\nPurpose:\n" ++ f.purpose }

def incidentEntry (i : IncidentRow) : Entry :=
  { ref_id := i.incident_id, ref_type := "INCIDENT", code := "INC-" ++ toString i.incident_id,
    text := "Incident Report: " ++ i.title ++ "\nDate: " ++ i.incident_date ++
      "\nSeverity: " ++ toString i.severity_level ++ "\n\nSummary:\n" ++ i.summary }

def buildEntries (s : DBState) : List Entry :=
  s.scps.map scpEntry ++ s.personnel.map personnelEntry ++ s.mtf.map mtfEntry ++
    s.facilities.map facilityEntry ++ s.incidents.map incidentEntry

/-! ## Index rebuild (`rebuild_index_from_mysql`, lines 120-158)

The full chunk table is scanned `ORDER BY chunk_id ASC`; each blob is
unpickled (failures are skipped by the bare `except: continue`); `np.vstack`
raises if every row was skipped; otherwise the vectors are inserted with
labels `0..N-1` in scan order and the artifact is saved.  An empty table
saves a fresh empty index. -/

def sortByChunkId (l : List ChunkRow) : List ChunkRow :=
  l.insertionSort (fun a b => a.chunk_id ≤ b.chunk_id)

def rebuild_index_from_mysql (O : Oracle) (s : DBState) : Except String DBState :=
  if (sortByChunkId s.chunks).isEmpty then .ok { s with indexFile := some [] }
  else
    if ((sortByChunkId s.chunks).filterMap (fun r => O.deser r.embedding_blob)).isEmpty then
      .error "need at least one array to concatenate"
    else
      .ok { s with indexFile := some ((sortByChunkId s.chunks).filterMap (fun r => O.deser r.embedding_blob)) }

/-- Function load_hnsw_index (lines 71-92): a missing artifact triggers a rebuild
first; a still-missing artifact yields `None`.  (The in-memory singleton cache
and the corrupt-file retry of lines 89-92 are not modelled: loading the
artifact cannot fail here.)  Returns the state reached and the loaded vectors. -/
def load_hnsw_index (O : Oracle) (s : DBState) :
    DBState × Except String (Option (List Nat)) :=
  match s.indexFile with
  | some v => (s, .ok (some v))
  | none =>
      match rebuild_index_from_mysql O s with
      | .error e => (s, .error e)
      | .ok s1 =>
          match s1.indexFile with
          | none => (s1, .ok none)
          | some v => (s1, .ok (some v))

/-! ## Sync Engine (`update_vector_store`, lines 166-286) -/

/-- Query SELECT DISTINCT scp_code FROM SCP_SEMANTIC_CHUNKS (line 220). -/
def processedCodes (chunks : List ChunkRow) : List String :=
  (chunks.map (fun ch => ch.scp_code)).dedup

/-- Diff to_add: the entries whose code is not in processed_codes (line 225). -/
def syncToAdd (all_entries : List Entry) (chunks : List ChunkRow) : List Entry :=
  all_entries.filter (fun e => decide (e.code ∉ processedCodes chunks))

/-- Diff to_remove: processed_codes minus current_codes (line 226). -/
def syncToRemove (all_entries : List Entry) (chunks : List ChunkRow) : List String :=
  (processedCodes chunks).filter (fun c => decide (c ∉ all_entries.map (fun e => e.code)))

/-- The chunk rows inserted for one new entry (lines 241-281): its text is
chunked, each chunk is embedded, pickled, and inserted with its 0-based
`chunk_index`; AUTO_INCREMENT assigns consecutive chunk ids.  (The source
batches embedder calls in groups of 32 and commits per batch; that affects
only commit granularity, not the final table contents.) -/
def chunksForEntry (O : Oracle) (e : Entry) (nid : Nat) : List ChunkRow :=
  (chunk_text e.text).enum.map (fun p =>
    { chunk_id := nid + p.1, ref_id := e.ref_id, ref_type := e.ref_type,
      scp_code := e.code, chunk_index := p.1, chunk_text := p.2,
      embedding_blob := O.ser (O.embed p.2) })

/-- The Add phase over `to_add`, threading the AUTO_INCREMENT counter. -/
def addEntries (O : Oracle) : List Entry → Nat → List ChunkRow × Nat
  | [], nid => ([], nid)
  | e :: rest, nid =>
      let cs := chunksForEntry O e nid
      let r := addEntries O rest (nid + cs.length)
      (cs ++ r.1, r.2)

/-- The state after the Remove and Add phases (lines 228-281): rows whose code
is in `to_remove` are deleted; fresh rows for `to_add` are inserted with
consecutive AUTO_INCREMENT ids. -/
def syncMidState (O : Oracle) (all_entries : List Entry) (s : DBState) : DBState :=
  { s with
    chunks :=
      s.chunks.filter (fun ch => decide (ch.scp_code ∉ syncToRemove all_entries s.chunks)) ++
        (addEntries O (syncToAdd all_entries s.chunks) s.nextChunkId).1
    nextChunkId := (addEntries O (syncToAdd all_entries s.chunks) s.nextChunkId).2 }

/-- One sync pass over a given entry snapshot (lines 220-286): diff, remove,
add, then rebuild if anything changed or the artifact is missing (line 283).
On a rebuild failure the chunk-table changes are already committed (the state
is kept) and the error propagates. -/
def syncEntries (O : Oracle) (all_entries : List Entry) (s : DBState) :
    DBState × Except String Unit :=
  if (syncToAdd all_entries s.chunks).isEmpty && (syncToRemove all_entries s.chunks).isEmpty &&
      s.indexFile.isSome then
    (syncMidState O all_entries s, .ok ())
  else
    match rebuild_index_from_mysql O (syncMidState O all_entries s) with
    | .ok s2 => (s2, .ok ())
    | .error e => (syncMidState O all_entries s, .error e)

/-- Function update_vector_store, the sync entry point. -/
def update_vector_store (O : Oracle) (s : DBState) : DBState × Except String Unit :=
  syncEntries O (buildEntries s) s

/-! ## Search Orchestrator (`perform_semantic_search`, lines 288-400) -/

/-- Over-fetch count query_k = min(topk * 2, index.get_current_count()) of line 317. -/
def query_k (topk count : Nat) : Nat := min (topk * 2) count

/-- Label-to-chunk_id translation (lines 324-329): `id_list` is the chunk ids
in `chunk_id` order; labels at least `len(id_list)` are discarded. -/
def labelsToChunkIds (labels : List Nat) (id_list : List Nat) : List Nat :=
  (labels.filter (fun l => decide (l < id_list.length))).map (fun l => id_list.getD l 0)

/-- Title/subtitle lookup per entity type (lines 358-383); a vanished entity
leaves both fields empty. -/
def titleAndClass (s : DBState) (row : ChunkRow) : String × String :=
  if row.ref_type = "SCP" then
    match s.scps.find? (fun r => r.scp_id == row.ref_id) with
    | some r => (r.title, r.object_class)
    | none => ("", "")
  else if row.ref_type = "PERSONNEL" then
    match s.personnel.find? (fun r => r.person_id == row.ref_id) with
    | some r => (r.given_name ++ " " ++ r.surname, r.role)
    | none => ("", "")
  else if row.ref_type = "MTF" then
    match s.mtf.find? (fun r => r.mtf_id == row.ref_id) with
    | some r => (r.nickname, "Mobile Task Force")
    | none => ("", "")
  else if row.ref_type = "FACILITY" then
    match s.facilities.find? (fun r => r.facility_id == row.ref_id) with
    | some r => (r.name, "Facility")
    | none => ("", "")
  else if row.ref_type = "INCIDENT" then
    match s.incidents.find? (fun r => r.incident_id == row.ref_id) with
    | some r => (r.title, "Severity " ++ toString r.severity_level)
    | none => ("", "")
  else ("", "")

/-- Assembly of one result dict (lines 385-393). -/
def buildResult (s : DBState) (row : ChunkRow) (score : ℚ) : SearchResult :=
  let tc := titleAndClass s row
  { id := row.ref_id, type := row.ref_type, scp_code := row.scp_code,
    title := tc.1, object_class := tc.2,
    description := strTake row.chunk_text 400 ++ "...", score := score }

/-- The de-duplication walk (lines 349-396): first (highest-scoring) chunk per
distinct `(ref_type, ref_id)` key; results are appended and the loop breaks
once `len(results) >= topk` (checked after appending). -/
def assembleLoop (s : DBState) (topk : Nat) :
    List (ChunkRow × ℚ) → List String → List SearchResult → List SearchResult
  | [], _, acc => acc.reverse
  | (row, score) :: rest, seen, acc =>
      let unique_key := row.ref_type ++ "_" ++ toString row.ref_id
      if decide (unique_key ∈ seen) then assembleLoop s topk rest seen acc
      else
        let acc1 := buildResult s row score :: acc
        if topk ≤ acc1.length then acc1.reverse
        else assembleLoop s topk rest (unique_key :: seen) acc1

/-- The retrieval + rerank + dedup pipeline (lines 317-396), given the loaded
nonempty index vectors: over-fetch `query_k` nearest labels, translate them to
chunk ids, union with the keyword-match ids (`LIMIT topk`), fetch those chunk
rows, rerank with the cross-encoder, sort by score descending (Python `sorted`
is stable), then walk with de-duplication.  Reads the state only. -/
def searchCore (O : Oracle) (s : DBState) (query : String) (topk : Nat)
    (vecs : List Nat) : List SearchResult :=
  let qk := query_k topk vecs.length
  let labels := (O.knn vecs (O.embed query) qk).take qk
  let id_list := (sortByChunkId s.chunks).map (fun r => r.chunk_id)
  let keyword_ids := (O.keywordMatch query s.chunks).take topk
  let candidate_chunk_ids := (labelsToChunkIds labels id_list ++ keyword_ids).dedup
  if candidate_chunk_ids.isEmpty then []
  else
    let chunk_rows := s.chunks.filter (fun ch => decide (ch.chunk_id ∈ candidate_chunk_ids))
    let scored := chunk_rows.map (fun ch => (ch, O.rerank query ch.chunk_text))
    let sorted_rows := scored.insertionSort (fun a b => b.2 ≤ a.2)
    assembleLoop s topk sorted_rows [] []

/-- The fast-path result dict (lines 297-305): fixed score 1.0. -/
def fastResult (row : ScpRow) : SearchResult :=
  { id := row.scp_id, type := "SCP", scp_code := row.scp_code, title := row.title,
    object_class := row.object_class,
    description := strTake row.full_description 500 ++ "...", score := 1 }

/-- The fast path (lines 291-306): if the query contains an SCP-code match,
normalize it to `SCP-%03d` and fetch the first SCP row whose `scp_code` is
`LIKE` that pattern (`LIMIT 1`). -/
def fastPathLookup (scps : List ScpRow) (query : String) : Option SearchResult :=
  match scpRegexSearch query with
  | none => none
  | some n =>
      match scps.find? (fun r => likeContains r.scp_code ("SCP-" ++ pad3 n)) with
      | none => none
      | some row => some (fastResult row)

/-- The guarded pipeline inside the `try` of lines 308-397: load the index
(rebuilding a missing artifact); if the loaded index is empty, run a full sync
pass and reload; give up with `[]` if it is still empty; otherwise run the
retrieval pipeline.  Errors carry the state already committed when they were
raised. -/
def searchMain (O : Oracle) (s : DBState) (query : String) (topk : Nat) :
    DBState × Except String (List SearchResult) :=
  match load_hnsw_index O s with
  | (s1, .error e) => (s1, .error e)
  | (s1, .ok none) => (s1, .ok [])
  | (s1, .ok (some vecs)) =>
      if vecs.length = 0 then
        match update_vector_store O s1 with
        | (s2, .error e) => (s2, .error e)
        | (s2, .ok ()) =>
            match load_hnsw_index O s2 with
            | (s3, .error e) => (s3, .error e)
            | (s3, .ok none) => (s3, .error "NoneType has no attribute get_current_count")
            | (s3, .ok (some vecs2)) =>
                if vecs2.length = 0 then (s3, .ok [])
                else (s3, .ok (searchCore O s3 query topk vecs2))
      else (s1, .ok (searchCore O s1 query topk vecs))

/-- Function perform_semantic_search (lines 288-400): the fast path first; otherwise
the guarded pipeline, whose errors the catch-all of lines 398-400 turns into
an empty result list.  Returns the results and the state after the call. -/
def perform_semantic_search (O : Oracle) (s : DBState) (query : String)
    (topk : Nat := 20) : List SearchResult × DBState :=
  match fastPathLookup s.scps query with
  | some r => ([r], s)
  | none =>
      match searchMain O s query topk with
      | (s1, .ok rs) => (rs, s1)
      | (s1, .error _) => ([], s1)

/-! ## Concrete instances used by witnesses and counterexamples -/

/-- A trivial but fully concrete collaborator assignment: constant embeddings,
identity pickling, a k-NN that returns the first `k` labels, a reranker that
scores everything 0, and a keyword engine that never matches. -/
def oracle0 : Oracle where
  embed := fun _ => 0
  ser := fun v => v
  deser := fun v => some v
  knn := fun vecs _ k => (List.range vecs.length).take k
  rerank := fun _ _ => 0
  keywordMatch := fun _ _ => []

/-- The state before any sync has ever run: empty tables, no artifact. -/
def emptyState : DBState where
  scps := []
  personnel := []
  mtf := []
  facilities := []
  incidents := []
  chunks := []
  nextChunkId := 1
  indexFile := none

def scpRow0042 : ScpRow :=
  { scp_id := 1, scp_code := "SCP-0042", title := "The Answer", object_class := "Safe",
    full_description := "desc", containment_procedures := "cont" }

/-- A record store holding exactly one SCP whose display code is `SCP-0042`,
before any sync has run. -/
def state0042 : DBState := { emptyState with scps := [scpRow0042] }

def scpRow042 : ScpRow :=
  { scp_id := 7, scp_code := "SCP-042", title := "A Formerly Winged Horse",
    object_class := "Safe", full_description := "desc", containment_procedures := "cont" }

/-- A record store holding exactly one SCP whose display code is `SCP-042`. -/
def state042 : DBState := { emptyState with scps := [scpRow042] }

/-- A state whose persisted index artifact exists and holds one vector. -/
def stateIdx1 : DBState := { emptyState with indexFile := some [0] }

def chunkA : ChunkRow :=
  { chunk_id := 1, ref_id := 1, ref_type := "SCP", scp_code := "A",
    chunk_index := 0, chunk_text := "ta", embedding_blob := 0 }

def chunkB : ChunkRow :=
  { chunk_id := 2, ref_id := 2, ref_type := "SCP", scp_code := "B",
    chunk_index := 0, chunk_text := "tb", embedding_blob := 0 }

def chunkC : ChunkRow :=
  { chunk_id := 3, ref_id := 3, ref_type := "SCP", scp_code := "C",
    chunk_index := 0, chunk_text := "tc", embedding_blob := 0 }

/-- A chunk store holding codes A, B and C, with a persisted index. -/
def stateABC : DBState :=
  { emptyState with
    chunks := [chunkA, chunkB, chunkC]
    nextChunkId := 4
    indexFile := some [0, 0, 0] }

def entryB : Entry := { ref_id := 2, ref_type := "SCP", code := "B", text := "tb" }

def entryC : Entry := { ref_id := 3, ref_type := "SCP", code := "C", text := "tc" }

def entryD : Entry := { ref_id := 4, ref_type := "SCP", code := "D", text := "td" }

/-! ## Derived specification predicates -/

/-- The unique_key of a result dict, as computed at line 354. -/
def resultKey (r : SearchResult) : String := r.type ++ "_" ++ toString r.id

/-- Consistency of the live index mapping with the chunk table: the artifact
exists, holds one vector per chunk row, and the label-to-chunk_id table
(id_list, the chunk ids in chunk_id scan order, indexed by label as in
lines 324-329) is duplicate-free and enumerates exactly the chunk ids of the
Chunk Store.  Together these make label to chunk_id a bijection between labels
0..N-1 and stored chunk ids. -/
def indexMappingConsistent (s : DBState) : Prop :=
  match s.indexFile with
  | none => False
  | some vecs =>
      vecs.length = ((sortByChunkId s.chunks).map (fun r => r.chunk_id)).length ∧
        ((sortByChunkId s.chunks).map (fun r => r.chunk_id)).Nodup ∧
        ((sortByChunkId s.chunks).map (fun r => r.chunk_id)).Perm
          (s.chunks.map (fun r => r.chunk_id))

/-! ## Sanity examples pinning concrete behaviour of the model -/

example : scpRegexSearch "SCP-042" = some 42 := by decide
example : scpRegexSearch "SCP-0042" = some 42 := by decide
example : scpRegexSearch "tell me about scp 173 now" = some 173 := by decide
example : scpRegexSearch "SCP-12345" = none := by decide
example : scpRegexSearch "XSCP-042" = none := by decide
example : scpRegexSearch "SCP-042x" = none := by decide
example : scpRegexSearch "SCP-000" = some 0 := by decide
example : scpRegexSearch "hello" = none := by decide
example : pad3 42 = "042" := by decide
example : likeContains "SCP-0421" "SCP-042" = true := by decide
example : likeContains "SCP-0042" "SCP-042" = false := by decide
example : chunkTokens 3 2 ["a", "b", "c", "d", "e"] =
    [["a", "b", "c"], ["c", "d", "e"], ["e"]] := by decide
example : chunkTextCfg 3 1 "  a b  c " = .ok ["a b c", "c"] := rfl
example : chunkTextCfg 2 2 "a b" = .error "range() arg 3 must not be zero" := rfl
example : chunkTextCfg 2 3 "a b" = .ok [] := rfl
example : fastPathLookup [scpRow0042] "SCP-0042" = none := by decide
example : fastPathLookup [scpRow042] "SCP-042" = some (fastResult scpRow042) := by decide
example : (perform_semantic_search oracle0 emptyState "hello" 20).1 = [] := by decide
example : ((perform_semantic_search oracle0 emptyState "hello" 20).2).indexFile = some [] := by
  decide

/-! ## Chunker lemmas -/

lemma ceil_div_succ (n step : Nat) (hstep : 0 < step) (hn : 0 < n) :
    (n + step - 1) / step = ((n - step) + step - 1) / step + 1 := by
  rcases le_or_lt n step with h | h
  · have h1 : n - step = 0 := by omega
    have h2 : n + step - 1 = (n - 1) + step := by omega
    rw [h1, h2, Nat.add_div_right _ hstep, Nat.div_eq_of_lt (by omega),
      Nat.div_eq_of_lt (by omega)]
  · have h2 : n + step - 1 = ((n - step) + step - 1) + step := by omega
    rw [h2, Nat.add_div_right _ hstep]

lemma chunkTokens_nil (size step : Nat) (hstep : 0 < step) :
    chunkTokens size step ([] : List String) = [] := by
  unfold chunkTokens rangeIdx
  rw [List.length_nil, Nat.div_eq_of_lt (by omega)]
  rfl

lemma chunkTokens_cons (size step : Nat) (hstep : 0 < step) (tokens : List String)
    (h : tokens ≠ []) :
    chunkTokens size step tokens =
      tokens.take size :: chunkTokens size step (tokens.drop step) := by
  have hn : 0 < tokens.length := List.length_pos.mpr h
  unfold chunkTokens rangeIdx
  rw [List.length_drop, ceil_div_succ tokens.length step hstep hn,
    List.range_succ_eq_map]
  simp only [List.map_cons, List.map_map, Nat.zero_mul, List.drop_zero]
  refine congrArg _ ?_
  refine List.map_congr_left (fun j _ => ?_)
  simp only [Function.comp_apply, List.drop_drop]
  have hj : j.succ * step = step + j * step := by
    rw [Nat.succ_mul]
    omega
  rw [hj]

lemma chunkTokens_length_le (size step : Nat) (tokens : List String) :
    ∀ c ∈ chunkTokens size step tokens, c.length ≤ size := by
  intro c hc
  unfold chunkTokens at hc
  obtain ⟨i, _, rfl⟩ := List.mem_map.mp hc
  rw [List.length_take]
  exact Nat.min_le_left _ _

/-- The tail chunks, shorn of their leading overlap, tile the suffix
`tokens.drop ov` of the token stream. -/
lemma chunkTokens_joinDrops (size ov : Nat) (h : ov < size) :
    ∀ fuel (tokens : List String), tokens.length ≤ fuel →
      ((chunkTokens size (size - ov) tokens).map (List.drop ov)).flatten = tokens.drop ov := by
  have hstep : 0 < size - ov := by omega
  intro fuel
  induction fuel with
  | zero =>
      intro tokens hlen
      have : tokens = [] := List.length_eq_zero.mp (by omega)
      subst this
      rw [chunkTokens_nil _ _ hstep]
      simp
  | succ fuel ih =>
      intro tokens hlen
      by_cases hnil : tokens = []
      · subst hnil
        rw [chunkTokens_nil _ _ hstep]
        simp
      · have hn : 0 < tokens.length := List.length_pos.mpr hnil
        rw [chunkTokens_cons _ _ hstep _ hnil, List.map_cons, List.flatten_cons,
          ih (tokens.drop (size - ov)) (by rw [List.length_drop]; omega)]
        have e1 : (tokens.take size).drop ov = (tokens.drop ov).take (size - ov) := by
          rw [List.drop_take]
        have e2 : (tokens.drop (size - ov)).drop ov = (tokens.drop ov).drop (size - ov) := by
          rw [List.drop_drop, List.drop_drop]
          congr 1
          omega
        rw [e1, e2, List.take_append_drop]

lemma chunkTokens_reconstruct (size ov : Nat) (h : ov < size) (tokens : List String) :
    reconstructChunks ov (chunkTokens size (size - ov) tokens) = tokens := by
  have hstep : 0 < size - ov := by omega
  by_cases hnil : tokens = []
  · subst hnil
    rw [chunkTokens_nil _ _ hstep]
    rfl
  · rw [chunkTokens_cons _ _ hstep _ hnil]
    simp only [reconstructChunks]
    rw [chunkTokens_joinDrops size ov h (tokens.drop (size - ov)).length _ le_rfl,
      List.drop_drop]
    have h2 : size - ov + ov = size := by omega
    rw [h2, List.take_append_drop]

/-- Claim C6: for every configuration with `chunk_size > overlap`, the chunking
loop of `chunk_text` succeeds (no configuration error), is deterministic (it is
a function of its input), every produced chunk holds at most `chunk_size`
tokens, and the concatenation of the chunks with the per-chunk
`overlap`-token prefix removed reconstructs the original token sequence. -/
theorem C6_chunking (size ov : Nat) (tokens : List String) (h : ov < size) :
    ∃ cs, chunkTokensCfg size ov tokens = .ok cs ∧
      (∀ c ∈ cs, c.length ≤ size) ∧ reconstructChunks ov cs = tokens := by
  refine ⟨chunkTokens size (size - ov) tokens, ?_, chunkTokens_length_le _ _ _,
    chunkTokens_reconstruct size ov h tokens⟩
  unfold chunkTokensCfg
  rw [if_neg (by omega), if_neg (by omega)]

/-- Witness for C6 at a concrete configuration and token list. -/
theorem C6_chunking_witness :
    ∃ cs, chunkTokensCfg 3 1 ["a", "b", "c", "d"] = .ok cs ∧
      (∀ c ∈ cs, c.length ≤ 3) ∧ reconstructChunks 1 cs = ["a", "b", "c", "d"] :=
  C6_chunking 3 1 ["a", "b", "c", "d"] (by omega)

/-- Claim C8 (corrected): with `chunk_size = overlap` (slide step zero),
`chunk_text` does fail fast on input with at least one token — the Python
`range` raises `ValueError` — but with `chunk_size < overlap` (negative step)
it does NOT fail: the range is empty and the chunker silently returns the
empty chunk sequence. -/
theorem C8_amended_degenerate (size ov : Nat) (text : String) (_hov : size ≤ ov) :
    (size = ov → pySplit text ≠ [] →
        chunkTextCfg size ov text = .error "range() arg 3 must not be zero") ∧
      (size < ov → chunkTextCfg size ov text = .ok []) := by
  constructor
  · intro heq htok
    have htext : text ≠ "" := by
      intro hx
      subst hx
      exact htok rfl
    unfold chunkTextCfg
    rw [if_neg htext, if_neg htok]
    unfold chunkTokensCfg
    rw [if_pos (by omega)]
    rfl
  · intro hlt
    unfold chunkTextCfg
    by_cases htext : text = ""
    · rw [if_pos htext]
    · rw [if_neg htext]
      by_cases htok : pySplit text = []
      · rw [if_pos htok]
      · rw [if_neg htok]
        unfold chunkTokensCfg
        rw [if_neg (by omega), if_pos (by omega)]
        rfl

/-- Witness for the amended C8 statement: step zero errors out. -/
theorem C8_amended_degenerate_witness :
    chunkTextCfg 2 2 "a b" = .error "range() arg 3 must not be zero" :=
  (C8_amended_degenerate 2 2 "a b" (by omega)).1 rfl (by decide)

/-- Counterexample to claim C8 as stated: with `chunk_size = 100 < overlap = 200`
and the non-empty input `"hello world"`, `chunk_text` raises no configuration
error — it silently returns the empty chunk sequence, exactly the outcome the
claim rules out. -/
theorem C8_counterexample : chunkTextCfg 100 200 "hello world" = .ok [] := rfl

/-- Claim C7 (corrected): the over-fetch in the source (line 317) is
`min(topk * 2, count)` — not `max(2*topk, index_size)` as claimed — and in
particular it never exceeds the current element count of the index. -/
theorem C7_amended_overfetch (topk count : Nat) :
    query_k topk count = min (topk * 2) count ∧ query_k topk count ≤ count :=
  ⟨rfl, Nat.min_le_right _ _⟩

/-- Counterexample to claim C7 as stated: with `topk = 1` and an index holding
10 elements, the claimed `max(2*topk, index_size)` clamped to the element
count would be 10, but the code queries with `min(2, 10) = 2`. -/
theorem C7_counterexample : query_k 1 10 ≠ min (max (1 * 2) 10) 10 := by decide

/-- Claim C10: label-to-chunk_id translation discards every label that is not
below the number of chunk rows, so every produced candidate is an existing
chunk id (no out-of-range access), and if the live index holds only labels
beyond the table (more elements than rows), no candidate is produced at all. -/
theorem C10_label_translation (labels id_list : List Nat) :
    (∀ c ∈ labelsToChunkIds labels id_list, c ∈ id_list) ∧
      ((∀ l ∈ labels, id_list.length ≤ l) → labelsToChunkIds labels id_list = []) := by
  constructor
  · intro c hc
    unfold labelsToChunkIds at hc
    obtain ⟨l, hl, rfl⟩ := List.mem_map.mp hc
    have hlt : l < id_list.length := by
      have := List.of_mem_filter hl
      simpa using this
    rw [List.getD_eq_getElem _ _ hlt]
    exact List.getElem_mem _
  · intro hall
    unfold labelsToChunkIds
    have : labels.filter (fun l => decide (l < id_list.length)) = [] := by
      rw [List.filter_eq_nil_iff]
      intro l hl
      have := hall l hl
      simpa using by omega
    rw [this]
    rfl

/-- Witness for C10 at concrete label lists: label 7 of `[0, 7]` is discarded
against a two-row table while label 0 translates to chunk id 5; labels `[2, 3]`
are all out of range and yield no candidates. -/
theorem C10_label_translation_witness :
    5 ∈ [5, 6] ∧ labelsToChunkIds [2, 3] [5, 6] = [] :=
  ⟨(C10_label_translation [0, 7] [5, 6]).1 5 (by decide),
    (C10_label_translation [2, 3] [5, 6]).2 (by decide)⟩

/-! ## Fast path, empty-store, and frame claims -/

/-- Claim C1 (corrected): the fast path does not look up the code given in the query
verbatim — it normalizes the matched number to `SCP-%03d` and takes the FIRST
SCP row whose `scp_code` contains that normalized code as a substring
(a substring LIKE query with LIMIT 1).  Whenever such a row exists, the search returns
exactly that one result with the fixed score 1.0, bypassing retrieval and
leaving the state untouched, for every oracle and every Vector Index state. -/
theorem C1_amended_fast_path (O : Oracle) (s : DBState) (query : String) (topk n : Nat)
    (row : ScpRow) (hm : scpRegexSearch query = some n)
    (hfind : s.scps.find? (fun r => likeContains r.scp_code ("SCP-" ++ pad3 n)) = some row) :
    perform_semantic_search O s query topk = ([fastResult row], s) ∧
      (fastResult row).score = 1 := by
  constructor
  · unfold perform_semantic_search fastPathLookup
    rw [hm]
    dsimp only
    rw [hfind]
  · rfl

/-- Witness for the amended C1 statement on a one-row record store. -/
theorem C1_amended_fast_path_witness :
    perform_semantic_search oracle0 state042 "SCP-042" 20 = ([fastResult scpRow042], state042) ∧
      (fastResult scpRow042).score = 1 :=
  C1_amended_fast_path oracle0 state042 "SCP-042" 20 42 scpRow042 (by decide) (by decide)

/-- Counterexample to claim C1 as stated: the query `"SCP-0042"` matches the
entity-code regex and an entity with exactly that display_code exists
(`state0042`), yet the search does NOT return that single fixed-top-score
result: the normalized pattern `SCP-042` is not a substring of `SCP-0042`, the
fast path misses, retrieval runs (triggering a sync), and the one result comes
back with the reranker score 0 instead of 1.0. -/
theorem C1_counterexample :
    ((perform_semantic_search oracle0 state0042 "SCP-0042" 20).1).map
      (fun r => r.score) = [0] := by decide

/-- Claim C4 (corrected): with an empty Record Store, a search before any sync
has ever run (no chunks, no index artifact) returns the empty list — and no
error escapes — for every oracle, query and topk. -/
theorem C4_amended_empty_store (O : Oracle) (query : String) (topk : Nat) :
    (perform_semantic_search O emptyState query topk).1 = [] := by
  have hfp : fastPathLookup emptyState.scps query = none := by
    unfold fastPathLookup
    cases scpRegexSearch query <;> rfl
  unfold perform_semantic_search
  rw [hfp]
  rfl

/-- Counterexample to claim C4 as stated: before any sync has run but with a
non-empty Record Store (`state0042`), `search("hello")` does not return an
empty list — the empty-index branch triggers a full sync pass from inside the
search call and one result is returned. -/
theorem C4_counterexample :
    ((perform_semantic_search oracle0 state0042 "hello" 20).1).length = 1 := by decide

/-- Claim C9 (corrected): whenever the persisted index artifact exists and is
non-empty, a search call leaves the entire state — Chunk Store, record tables,
artifact — untouched.  (The claim fails unconditionally only because a missing
artifact is rebuilt and an empty index triggers a sync from inside `search`.) -/
theorem C9_amended_search_readonly (O : Oracle) (s : DBState) (query : String)
    (topk : Nat) (vecs : List Nat) (hfile : s.indexFile = some vecs) (hne : vecs ≠ []) :
    (perform_semantic_search O s query topk).2 = s := by
  have hlen : ¬vecs.length = 0 := fun hx => hne (List.length_eq_zero.mp hx)
  unfold perform_semantic_search
  cases hfp : fastPathLookup s.scps query with
  | some r => rfl
  | none =>
      dsimp only
      unfold searchMain load_hnsw_index
      rw [hfile]
      dsimp only
      rw [if_neg hlen]

/-- Witness for the amended C9 statement: a loaded one-element index makes the
call pure. -/
theorem C9_amended_search_readonly_witness :
    (perform_semantic_search oracle0 stateIdx1 "anything" 20).2 = stateIdx1 :=
  C9_amended_search_readonly oracle0 stateIdx1 "anything" 20 [0] rfl (by decide)

/-- Counterexample to claim C9 as stated: a search call on a state with no
persisted index artifact writes one (the missing-artifact rebuild inside
`load_hnsw_index` saves a fresh index), so search is not stateless. -/
theorem C9_counterexample :
    ((perform_semantic_search oracle0 emptyState "hello" 20).2).indexFile ≠ none := by decide

/-! ## De-duplication claims -/

lemma resultKey_buildResult (s : DBState) (row : ChunkRow) (score : ℚ) :
    resultKey (buildResult s row score) = row.ref_type ++ "_" ++ toString row.ref_id := rfl

lemma assembleLoop_pairwise (s : DBState) (topk : Nat) :
    ∀ rows (seen : List String) (acc : List SearchResult),
      acc.Pairwise (fun a b => resultKey a ≠ resultKey b) →
      (∀ r ∈ acc, resultKey r ∈ seen) →
      (assembleLoop s topk rows seen acc).Pairwise
        (fun a b => resultKey a ≠ resultKey b) := by
  intro rows
  induction rows with
  | nil =>
      intro seen acc h1 _
      simpa [assembleLoop, List.pairwise_reverse] using h1.imp (fun h => h.symm)
  | cons p rest ih =>
      intro seen acc h1 h2
      obtain ⟨row, score⟩ := p
      by_cases hseen : row.ref_type ++ "_" ++ toString row.ref_id ∈ seen
      · simpa [assembleLoop, hseen] using ih seen acc h1 h2
      · have hnew : ∀ r ∈ acc,
            resultKey (buildResult s row score) ≠ resultKey r := by
          intro r hr
          rw [resultKey_buildResult]
          intro hx
          exact hseen (hx ▸ h2 r hr)
        have h1' : (buildResult s row score :: acc).Pairwise
            (fun a b => resultKey a ≠ resultKey b) := List.Pairwise.cons hnew h1
        by_cases hbreak : topk ≤ acc.length + 1
        · have hrev : ((buildResult s row score :: acc).reverse).Pairwise
              (fun a b => resultKey a ≠ resultKey b) :=
            (List.pairwise_reverse).mpr (h1'.imp (fun h => h.symm))
          simpa [assembleLoop, hseen, hbreak] using hrev
        · have h2' : ∀ r ∈ buildResult s row score :: acc,
              resultKey r ∈ (row.ref_type ++ "_" ++ toString row.ref_id) :: seen := by
            intro r hr
            rcases List.mem_cons.mp hr with h | h
            · subst h
              exact List.mem_cons_self _ _
            · exact List.mem_cons_of_mem _ (h2 r h)
          simpa [assembleLoop, hseen, hbreak] using ih _ _ h1' h2'

lemma assembleLoop_length (s : DBState) (topk : Nat) :
    ∀ rows (seen : List String) (acc : List SearchResult), acc.length < topk →
      (assembleLoop s topk rows seen acc).length ≤ topk := by
  intro rows
  induction rows with
  | nil =>
      intro seen acc hlt
      simpa [assembleLoop] using Nat.le_of_lt hlt
  | cons p rest ih =>
      intro seen acc hlt
      obtain ⟨row, score⟩ := p
      by_cases hseen : row.ref_type ++ "_" ++ toString row.ref_id ∈ seen
      · simpa [assembleLoop, hseen] using ih seen acc hlt
      · by_cases hbreak : topk ≤ acc.length + 1
        · simpa [assembleLoop, hseen, hbreak] using hlt
        · simpa [assembleLoop, hseen, hbreak] using
            ih _ _ (by simp only [List.length_cons]; omega)

lemma searchCore_pairwise (O : Oracle) (s : DBState) (query : String) (topk : Nat)
    (vecs : List Nat) :
    (searchCore O s query topk vecs).Pairwise (fun a b => resultKey a ≠ resultKey b) := by
  unfold searchCore
  dsimp only
  split
  · exact List.Pairwise.nil
  · exact assembleLoop_pairwise s topk _ [] [] List.Pairwise.nil (by intro r hr; cases hr)

lemma searchCore_length (O : Oracle) (s : DBState) (query : String) (topk : Nat)
    (vecs : List Nat) (h : 1 ≤ topk) :
    (searchCore O s query topk vecs).length ≤ topk := by
  unfold searchCore
  dsimp only
  split
  · simp
  · exact assembleLoop_length s topk _ [] [] (by simpa using h)

/-- Every `.ok` result list of the guarded pipeline is either empty or a
`searchCore` output. -/
lemma searchMain_ok_shape (O : Oracle) (s : DBState) (query : String) (topk : Nat) :
    ∀ s1 rs, searchMain O s query topk = (s1, .ok rs) →
      rs = [] ∨ ∃ s2 vecs, rs = searchCore O s2 query topk vecs := by
  intro s1 rs h
  unfold searchMain at h
  rcases h1 : load_hnsw_index O s with ⟨sa, ra⟩
  rw [h1] at h
  match ra with
  | .error e => simp at h
  | .ok none =>
      simp at h
      exact Or.inl h.2
  | .ok (some vecs) =>
      simp only at h
      by_cases hv : vecs.length = 0
      · rw [if_pos hv] at h
        rcases h2 : update_vector_store O sa with ⟨sb, rb⟩
        rw [h2] at h
        match rb with
        | .error e => simp at h
        | .ok () =>
            simp only at h
            rcases h3 : load_hnsw_index O sb with ⟨sc, rc⟩
            rw [h3] at h
            match rc with
            | .error e => simp at h
            | .ok none => simp at h
            | .ok (some vecs2) =>
                simp only at h
                by_cases hv2 : vecs2.length = 0
                · rw [if_pos hv2] at h
                  simp at h
                  exact Or.inl h.2
                · rw [if_neg hv2] at h
                  simp at h
                  exact Or.inr ⟨sc, vecs2, h.2.symm⟩
      · rw [if_neg hv] at h
        simp at h
        exact Or.inr ⟨sa, vecs, h.2.symm⟩

/-- Claim C5 (corrected): for every query and every topk — including
`topk = 0` — no two result entries ever share the same
`(entity_type, entity_id)` pair; and whenever `topk ≥ 1` the result list holds
at most `topk` entries.  (For `topk = 0` the fast path still returns one
entry, which is the only violation of the stated bound.) -/
theorem C5_amended_dedup_topk (O : Oracle) (s : DBState) (query : String) (topk : Nat) :
    ((perform_semantic_search O s query topk).1).Pairwise
        (fun a b => ¬(a.type = b.type ∧ a.id = b.id)) ∧
      (1 ≤ topk → ((perform_semantic_search O s query topk).1).length ≤ topk) := by
  have key_imp : ∀ {a b : SearchResult}, resultKey a ≠ resultKey b →
      ¬(a.type = b.type ∧ a.id = b.id) := by
    intro a b hk hx
    refine hk ?_
    unfold resultKey
    rw [hx.1, hx.2]
  unfold perform_semantic_search
  cases hfp : fastPathLookup s.scps query with
  | some r =>
      refine ⟨List.pairwise_singleton _ _, fun h => by simpa using h⟩
  | none =>
      rcases hsm : searchMain O s query topk with ⟨s1, res⟩
      match res with
      | .error e => exact ⟨List.Pairwise.nil, fun _ => by simp⟩
      | .ok rs =>
          rcases searchMain_ok_shape O s query topk s1 rs hsm with hnil | ⟨s2, vecs, hcore⟩
          · subst hnil
            exact ⟨List.Pairwise.nil, fun _ => by simp⟩
          · subst hcore
            exact ⟨(searchCore_pairwise O s2 query topk vecs).imp key_imp,
              fun h => searchCore_length O s2 query topk vecs h⟩

/-- Witness for the amended C5 statement on a concrete search, discharging the
bound conjunct at `topk = 20`. -/
theorem C5_amended_dedup_topk_witness :
    ((perform_semantic_search oracle0 state0042 "hello" 20).1).Pairwise
        (fun a b => ¬(a.type = b.type ∧ a.id = b.id)) ∧
      ((perform_semantic_search oracle0 state0042 "hello" 20).1).length ≤ 20 :=
  ⟨(C5_amended_dedup_topk oracle0 state0042 "hello" 20).1,
    (C5_amended_dedup_topk oracle0 state0042 "hello" 20).2 (by omega)⟩

/-- Counterexample to claim C5 as stated: with `topk = 0` the fast path still
returns one result — more than `topk` entries. -/
theorem C5_counterexample :
    ((perform_semantic_search oracle0 state042 "SCP-042" 0).1).length = 1 := by decide

/-! ## Sync diff claims -/

lemma rebuild_chunks (O : Oracle) (s : DBState) :
    ∀ s1, rebuild_index_from_mysql O s = .ok s1 → s1.chunks = s.chunks := by
  intro s1 h
  unfold rebuild_index_from_mysql at h
  split at h
  · cases h
    rfl
  · split at h
    · cases h
    · cases h
      rfl

/-- The chunk table produced by one sync pass: surviving rows (those whose
code is not in `to_remove`) followed by the freshly inserted rows for
`to_add`, independent of whether the rebuild step runs or fails. -/
lemma syncEntries_chunks (O : Oracle) (entries : List Entry) (s : DBState) :
    (syncEntries O entries s).1.chunks =
      s.chunks.filter (fun ch => decide (ch.scp_code ∉ syncToRemove entries s.chunks)) ++
        (addEntries O (syncToAdd entries s.chunks) s.nextChunkId).1 := by
  unfold syncEntries
  split
  · rfl
  · split
    · rename_i s2 hs2
      exact rebuild_chunks O _ s2 hs2
    · rfl

/-- Claim C2: with stored codes drawn from `{A, B, C}` (B and C actually
present) and a Record Store snapshot whose entry codes are drawn from
`{B, C, D}` (B and C still present), one sync pass deletes exactly the chunks
coded A, inserts chunks only for the D entries, and keeps every B and C chunk
row untouched and in place. -/
theorem C2_sync_diff (O : Oracle) (s : DBState) (entries : List Entry) (A B C D : String)
    (hAB : A ≠ B) (hAC : A ≠ C) (hAD : A ≠ D) (hDB : D ≠ B) (hDC : D ≠ C)
    (hstored : ∀ ch ∈ s.chunks, ch.scp_code = A ∨ ch.scp_code = B ∨ ch.scp_code = C)
    (hB : B ∈ s.chunks.map (fun ch => ch.scp_code))
    (hC : C ∈ s.chunks.map (fun ch => ch.scp_code))
    (hcur : ∀ e ∈ entries, e.code = B ∨ e.code = C ∨ e.code = D)
    (hBcur : B ∈ entries.map (fun e => e.code))
    (hCcur : C ∈ entries.map (fun e => e.code)) :
    (syncEntries O entries s).1.chunks =
      s.chunks.filter (fun ch => decide (ch.scp_code ≠ A)) ++
        (addEntries O (entries.filter (fun e => decide (e.code = D))) s.nextChunkId).1 := by
  have hDstored : D ∉ processedCodes s.chunks := by
    intro hx
    rcases List.mem_map.mp ((List.mem_dedup).mp hx) with ⟨ch, hch, hcode⟩
    rcases hstored ch hch with h | h | h
    · exact hAD (by rw [← hcode, h])
    · exact hDB (by rw [← hcode, h])
    · exact hDC (by rw [← hcode, h])
  have hto_add : syncToAdd entries s.chunks =
      entries.filter (fun e => decide (e.code = D)) := by
    unfold syncToAdd
    refine List.filter_congr (fun e he => ?_)
    rw [decide_eq_decide]
    rcases hcur e he with h | h | h
    · have hBin : B ∈ processedCodes s.chunks := (List.mem_dedup).mpr hB
      rw [h]
      exact iff_of_false (not_not_intro hBin) (fun hx => hDB hx.symm)
    · have hCin : C ∈ processedCodes s.chunks := (List.mem_dedup).mpr hC
      rw [h]
      exact iff_of_false (not_not_intro hCin) (fun hx => hDC hx.symm)
    · rw [h]
      exact iff_of_true hDstored rfl
  have hto_remove : ∀ ch ∈ s.chunks,
      decide (ch.scp_code ∉ syncToRemove entries s.chunks) = decide (ch.scp_code ≠ A) := by
    intro ch hch
    have hmem : ch.scp_code ∈ processedCodes s.chunks :=
      (List.mem_dedup).mpr (List.mem_map.mpr ⟨ch, hch, rfl⟩)
    rcases hstored ch hch with h | h | h
    · have hAcur : A ∉ entries.map (fun e => e.code) := by
        intro hx
        rcases List.mem_map.mp hx with ⟨e, he, hcode⟩
        rcases hcur e he with h' | h' | h'
        · exact hAB (by rw [← hcode, h'])
        · exact hAC (by rw [← hcode, h'])
        · exact hAD (by rw [← hcode, h'])
      have hArem : ch.scp_code ∈ syncToRemove entries s.chunks := by
        unfold syncToRemove
        refine List.mem_filter.mpr ⟨hmem, ?_⟩
        rw [h]
        simpa using hAcur
      rw [decide_eq_decide]
      exact iff_of_false (not_not_intro hArem) (fun hq => hq h)
    · have hBrem : ch.scp_code ∉ syncToRemove entries s.chunks := by
        unfold syncToRemove
        intro hx
        have h2 := (List.mem_filter.mp hx).2
        rw [h] at h2
        exact (of_decide_eq_true h2) hBcur
      rw [decide_eq_decide]
      exact iff_of_true hBrem (by rw [h]; exact fun hx => hAB hx.symm)
    · have hCrem : ch.scp_code ∉ syncToRemove entries s.chunks := by
        unfold syncToRemove
        intro hx
        have h2 := (List.mem_filter.mp hx).2
        rw [h] at h2
        exact (of_decide_eq_true h2) hCcur
      rw [decide_eq_decide]
      exact iff_of_true hCrem (by rw [h]; exact fun hx => hAC hx.symm)
  rw [syncEntries_chunks, hto_add, List.filter_congr hto_remove]

/-- Witness for C2 at the concrete A, B, C versus B, C, D scenario of
the claim. -/
theorem C2_sync_diff_witness :
    (syncEntries oracle0 [entryB, entryC, entryD] stateABC).1.chunks =
      stateABC.chunks.filter (fun ch => decide (ch.scp_code ≠ "A")) ++
        (addEntries oracle0 ([entryB, entryC, entryD].filter (fun e => decide (e.code = "D")))
          stateABC.nextChunkId).1 :=
  C2_sync_diff oracle0 stateABC [entryB, entryC, entryD] "A" "B" "C" "D"
    (by decide) (by decide) (by decide) (by decide) (by decide)
    (by decide) (by decide) (by decide) (by decide) (by decide) (by decide)

/-! ## Rebuild-consistency claims -/

lemma length_filterMap_of_isSome {α β : Type} (f : α → Option β) :
    ∀ l : List α, (∀ a ∈ l, (f a).isSome = true) → (l.filterMap f).length = l.length := by
  intro l
  induction l with
  | nil => intro _; rfl
  | cons a rest ih =>
      intro hall
      rcases hfa : f a with _ | b
      · have := hall a (List.mem_cons_self a rest)
        rw [hfa] at this
        cases this
      · have ih' := ih (fun x hx => hall x (List.mem_cons_of_mem a hx))
        simp [List.filterMap_cons, hfa, ih']

/-- A rebuild from a table whose blobs all deserialize succeeds and leaves a
consistent index mapping. -/
lemma rebuild_consistent (O : Oracle) (s : DBState)
    (hall : ∀ ch ∈ s.chunks, (O.deser ch.embedding_blob).isSome = true)
    (hnd : (s.chunks.map (fun ch => ch.chunk_id)).Nodup) :
    ∃ s1, rebuild_index_from_mysql O s = .ok s1 ∧ s1.chunks = s.chunks ∧
      indexMappingConsistent s1 := by
  have hperm : (sortByChunkId s.chunks).Perm s.chunks :=
    List.perm_insertionSort _ _
  have hpermmap : ((sortByChunkId s.chunks).map (fun r => r.chunk_id)).Perm
      (s.chunks.map (fun r => r.chunk_id)) := hperm.map _
  by_cases he : (sortByChunkId s.chunks).isEmpty
  · have hsortnil : sortByChunkId s.chunks = [] := by
      cases hx : sortByChunkId s.chunks
      · rfl
      · rw [hx] at he
        cases he
    refine ⟨{ s with indexFile := some [] }, ?_, rfl, ?_⟩
    · unfold rebuild_index_from_mysql
      rw [if_pos he]
    · unfold indexMappingConsistent
      refine ⟨?_, ?_, ?_⟩
      · rw [hsortnil]
        rfl
      · rw [hsortnil]
        exact List.nodup_nil
      · exact hpermmap
  · have hlen : ((sortByChunkId s.chunks).filterMap
        (fun r => O.deser r.embedding_blob)).length = (sortByChunkId s.chunks).length :=
      length_filterMap_of_isSome _ _ (fun a ha => hall a (hperm.mem_iff.mp ha))
    have hvne : ¬((sortByChunkId s.chunks).filterMap
        (fun r => O.deser r.embedding_blob)).isEmpty = true := by
      intro hx
      apply he
      have h0 : ((sortByChunkId s.chunks).filterMap
          (fun r => O.deser r.embedding_blob)).length = 0 := by
        rw [List.isEmpty_iff.mp hx]
        rfl
      rw [hlen] at h0
      rw [List.isEmpty_iff, ← List.length_eq_zero]
      exact h0
    refine ⟨{ s with indexFile := some ((sortByChunkId s.chunks).filterMap
        (fun r => O.deser r.embedding_blob)) }, ?_, rfl, ?_⟩
    · unfold rebuild_index_from_mysql
      rw [if_neg he, if_neg hvne]
    · unfold indexMappingConsistent
      refine ⟨?_, ?_, hpermmap⟩
      · rw [hlen, List.length_map]
      · exact (hpermmap.nodup_iff).mpr hnd

lemma chunksForEntry_ids (O : Oracle) (e : Entry) (nid : Nat) :
    (chunksForEntry O e nid).map (fun ch => ch.chunk_id) =
      (List.range (chunk_text e.text).length).map (fun j => nid + j) := by
  unfold chunksForEntry
  rw [List.map_map]
  have h1 : ((fun ch => ch.chunk_id) ∘ fun p : Nat × String =>
      (⟨nid + p.1, e.ref_id, e.ref_type, e.code, p.1, p.2,
        O.ser (O.embed p.2)⟩ : ChunkRow)) = (fun j => nid + j) ∘ Prod.fst := rfl
  rw [h1, ← List.map_map, List.enum_map_fst]

lemma chunksForEntry_length (O : Oracle) (e : Entry) (nid : Nat) :
    (chunksForEntry O e nid).length = (chunk_text e.text).length := by
  unfold chunksForEntry
  rw [List.length_map, List.enum_length]

/-- The Add phase of one sync pass assigns fresh consecutive ids starting at
the AUTO_INCREMENT counter, stores serialized embeddings, and never reuses an
id. -/
lemma addEntries_spec (O : Oracle) :
    ∀ (es : List Entry) (nid : Nat),
      nid ≤ (addEntries O es nid).2 ∧
        (∀ ch ∈ (addEntries O es nid).1,
          nid ≤ ch.chunk_id ∧ ch.chunk_id < (addEntries O es nid).2 ∧
            ∃ t, ch.embedding_blob = O.ser (O.embed t)) ∧
        ((addEntries O es nid).1.map (fun ch => ch.chunk_id)).Nodup := by
  intro es
  induction es with
  | nil =>
      intro nid
      refine ⟨le_rfl, ?_, ?_⟩
      · intro ch hch
        simp [addEntries] at hch
      · simp [addEntries]
  | cons e rest ih =>
      intro nid
      obtain ⟨ih1, ih2, ih3⟩ := ih (nid + (chunksForEntry O e nid).length)
      have hcs : ∀ ch ∈ chunksForEntry O e nid,
          nid ≤ ch.chunk_id ∧ ch.chunk_id < nid + (chunksForEntry O e nid).length ∧
            ∃ t, ch.embedding_blob = O.ser (O.embed t) := by
        intro ch hch
        have hid : ch.chunk_id ∈ (chunksForEntry O e nid).map (fun c => c.chunk_id) :=
          List.mem_map.mpr ⟨ch, hch, rfl⟩
        rw [chunksForEntry_ids] at hid
        obtain ⟨j, hj, hje⟩ := List.mem_map.mp hid
        have hjlt : j < (chunk_text e.text).length := List.mem_range.mp hj
        have hlen := chunksForEntry_length O e nid
        refine ⟨by omega, by omega, ?_⟩
        · unfold chunksForEntry at hch
          obtain ⟨p, _, hp⟩ := List.mem_map.mp hch
          exact ⟨p.2, by rw [← hp]⟩
      constructor
      · show nid ≤ (addEntries O rest (nid + (chunksForEntry O e nid).length)).2
        omega
      constructor
      · intro ch hch
        have hch' : ch ∈ chunksForEntry O e nid ++
            (addEntries O rest (nid + (chunksForEntry O e nid).length)).1 := hch
        have hsnd : (addEntries O (e :: rest) nid).2 =
            (addEntries O rest (nid + (chunksForEntry O e nid).length)).2 := rfl
        rw [hsnd]
        rcases List.mem_append.mp hch' with hin | hin
        · obtain ⟨hl, hu, ht⟩ := hcs ch hin
          exact ⟨hl, by omega, ht⟩
        · obtain ⟨hl, hu, ht⟩ := ih2 ch hin
          exact ⟨by omega, hu, ht⟩
      · show (((chunksForEntry O e nid) ++
            (addEntries O rest (nid + (chunksForEntry O e nid).length)).1).map
              (fun ch => ch.chunk_id)).Nodup
        rw [List.map_append, List.nodup_append]
        refine ⟨?_, ih3, ?_⟩
        · rw [chunksForEntry_ids]
          exact (List.nodup_range _).map (fun a b hab => by omega)
        · intro a ha hb
          obtain ⟨ch, hch, rfl⟩ := List.mem_map.mp ha
          obtain ⟨ch2, hch2, heq⟩ := List.mem_map.mp hb
          obtain ⟨_, hu, _⟩ := hcs ch hch
          obtain ⟨hl2, _, _⟩ := ih2 ch2 hch2
          omega

/-- Claim C3: a sync pass whose rebuild step runs (something changed, or the
artifact was missing) succeeds and leaves the label-to-chunk_id mapping a
bijection: one vector per chunk row, labels `0..N-1` assigned in `chunk_id`
scan order, the scan-order id table duplicate-free and enumerating exactly the
stored chunk ids — no orphan on either side.  Hypotheses: pickling round-trips
(`deser ∘ ser = some`), the existing blobs deserialize, the existing chunk ids
are duplicate-free and below the AUTO_INCREMENT counter. -/
theorem C3_rebuild_bijection (O : Oracle) (s : DBState) (entries : List Entry)
    (hro : ∀ v, O.deser (O.ser v) = some v)
    (hblob : ∀ ch ∈ s.chunks, (O.deser ch.embedding_blob).isSome = true)
    (hnd : (s.chunks.map (fun ch => ch.chunk_id)).Nodup)
    (hlt : ∀ ch ∈ s.chunks, ch.chunk_id < s.nextChunkId)
    (hreb : ¬(syncToAdd entries s.chunks = [] ∧ syncToRemove entries s.chunks = [] ∧
        s.indexFile.isSome = true)) :
    (syncEntries O entries s).2 = .ok () ∧
      indexMappingConsistent (syncEntries O entries s).1 := by
  obtain ⟨hadd1, hadd2, hadd3⟩ := addEntries_spec O (syncToAdd entries s.chunks) s.nextChunkId
  have hall1 : ∀ ch ∈ (syncMidState O entries s).chunks,
      (O.deser ch.embedding_blob).isSome = true := by
    intro ch hch
    rcases List.mem_append.mp hch with hin | hin
    · exact hblob ch (List.mem_filter.mp hin).1
    · obtain ⟨_, _, t, ht⟩ := hadd2 ch hin
      rw [ht, hro]
      rfl
  have hnd1 : ((syncMidState O entries s).chunks.map (fun ch => ch.chunk_id)).Nodup := by
    show ((s.chunks.filter _ ++ (addEntries O (syncToAdd entries s.chunks)
        s.nextChunkId).1).map (fun ch => ch.chunk_id)).Nodup
    rw [List.map_append, List.nodup_append]
    refine ⟨?_, hadd3, ?_⟩
    · exact ((List.filter_sublist _).map _).nodup hnd
    · intro a ha hb
      obtain ⟨ch, hch, rfl⟩ := List.mem_map.mp ha
      obtain ⟨ch2, hch2, heq⟩ := List.mem_map.mp hb
      have h1 := hlt ch (List.mem_filter.mp hch).1
      obtain ⟨hl2, _, _⟩ := hadd2 ch2 hch2
      omega
  have hcond : ¬(((syncToAdd entries s.chunks).isEmpty &&
      (syncToRemove entries s.chunks).isEmpty && s.indexFile.isSome) = true) := by
    intro hx
    rw [Bool.and_eq_true, Bool.and_eq_true] at hx
    exact hreb ⟨List.isEmpty_iff.mp hx.1.1, List.isEmpty_iff.mp hx.1.2, hx.2⟩
  obtain ⟨s2, hs2, _, hcons⟩ := rebuild_consistent O (syncMidState O entries s) hall1 hnd1
  unfold syncEntries
  rw [if_neg hcond, hs2]
  exact ⟨rfl, hcons⟩

/-- Witness for C3: the `{A, B, C}` versus `{B, C, D}` sync pass of the C2
scenario rebuilds and leaves a consistent mapping. -/
theorem C3_rebuild_bijection_witness :
    (syncEntries oracle0 [entryB, entryC, entryD] stateABC).2 = .ok () ∧
      indexMappingConsistent (syncEntries oracle0 [entryB, entryC, entryD] stateABC).1 :=
  C3_rebuild_bijection oracle0 stateABC [entryB, entryC, entryD] (fun v => rfl)
    (by decide) (by decide) (by decide) (by decide)
